import Mathlib

/-!
# Verification of the libfprint imaging-device core (fpi-dev-img.c)

A shallow embedding of the device-independent imaging state machine of
libfprint: per-device action/state tracking, image sanitation, the
minutiae acceptance gate, the enrollment accumulator and the verify /
identify scoring decision, as implemented in src/libfprint/fpi-dev-img.c.

External collaborators (minutiae extraction, template comparison, the
pixel-buffer sanity predicate, the physical driver) are modelled as
inputs: their verdicts for a given capture are carried as fields of the
image event, and driver requests issued by the core are recorded in an
output event list.
-/

namespace LibFprint

/-- Modelled from the spec: enroll result code for a completed enrollment,
from the public result-code header which is not under src; distinct
positive codes, zero means no result yet. -/
def FP_ENROLL_COMPLETE : Int := 1

/-- Modelled from the spec: terminal enroll failure code. -/
def FP_ENROLL_FAIL : Int := 2

/-- Modelled from the spec: enroll stage passed, more stages needed. -/
def FP_ENROLL_PASS : Int := 3

/-- Modelled from the spec: recoverable per-cycle retry code; the source
relies on FP_VERIFY_RETRY having the same value. -/
def FP_ENROLL_RETRY : Int := 100

/-- Modelled from the spec: verify result, no match. -/
def FP_VERIFY_NO_MATCH : Int := 0

/-- Modelled from the spec: verify result, match. -/
def FP_VERIFY_MATCH : Int := 1

/-- Modelled from the spec: capture completed result code. -/
def FP_CAPTURE_COMPLETE : Int := 0

/-- errno code for an invalid-argument (bad geometry) error. -/
def EINVAL : Int := 22

/-- errno code for an unsupported operation. -/
def ENOTSUP : Int := 95

/-- MIN_ACCEPTABLE_MINUTIAE in fpi-dev-img.c. -/
def MIN_ACCEPTABLE_MINUTIAE : Int := 10

/-- BOZORTH3_DEFAULT_THRESHOLD in fpi-dev-img.c. -/
def BOZORTH3_DEFAULT_THRESHOLD : Int := 40

/-- IMG_ENROLL_STAGES in fpi-dev-img.c. -/
def IMG_ENROLL_STAGES : Nat := 5

/-- enum fp_imgdev_action. -/
inductive ImgdevAction
  | none
  | enroll
  | verify
  | identify
  | capture
deriving DecidableEq, Repr

/-- enum fp_imgdev_enroll_state (the action_state field); the zero value
IMG_ACQUIRE_STATE_NONE is the inactive state. -/
inductive AcquireState
  | inactive
  | activating
  | awaitFingerOn
  | awaitImage
  | awaitFingerOff
  | deactivating
deriving DecidableEq, Repr

/-- enum fp_imgdev_state: the state the core requests of the driver. -/
inductive ImgdevState
  | inactive
  | awaitFingerOn
  | capture
  | awaitFingerOff
deriving DecidableEq, Repr

/-- One minutiae-set item of a print template (struct fp_print_data_item).
An item is either the minutiae extracted from a captured image
(identified by a token) or a freshly allocated, never-filled item. -/
inductive Item
  | extracted (tok : Nat)
  | blank
deriving DecidableEq, Repr

/-- struct fp_img together with the verdicts the external collaborators
(fpi_img_is_sane, fpi_img_to_print_data, fpi_img_compare_print_data and
the gallery comparison) would return for this capture; the collaborators
themselves are outside the core, so their outcomes are inputs here. -/
structure Img where
  width : Int
  height : Int
  /-- verdict of fpi_img_is_sane on this image -/
  sane : Bool
  /-- whether fpi_img_to_print_data succeeds on this image -/
  extract_ok : Bool
  /-- img->minutiae->num after extraction -/
  minutiae_num : Int
  /-- token identifying the single item extraction yields -/
  item_tok : Nat
  /-- score fpi_img_compare_print_data returns against the verify data -/
  cmp_score : Int
  /-- result fpi_img_compare_print_data_to_gallery returns -/
  gallery_r : Int
  /-- match offset the gallery comparison reports -/
  gallery_off : Nat
deriving DecidableEq, Repr

/-- The driver-declared constants the core reads (struct fp_img_driver). -/
structure ImgDriver where
  img_width : Int
  img_height : Int
  bz3_threshold : Int
deriving DecidableEq, Repr

/-- struct fp_img_dev, plus the nr_enroll_stages field of its parent
fp_dev. Prints are lists of items; enroll_data is the accumulated
multi-item enrollment template. -/
structure ImgDev where
  action : ImgdevAction
  action_state : AcquireState
  action_result : Int
  enroll_stage : Nat
  enroll_data : Option (List Item)
  acquire_img : Option Img
  acquire_data : Option (List Item)
  identify_match_offset : Nat
  nr_enroll_stages : Nat
deriving DecidableEq, Repr

/-- Modelled from the spec: the outward calls the core makes — requests to
the driver (change_state, activate, deactivate) and the upward result /
lifecycle notifications (the fpi_drvcb callbacks, declared in headers not
under src). Recorded in order of issue. -/
inductive Event
  | changeState (s : ImgdevState)
  | activate (s : ImgdevState)
  | deactivate
  | enrollStageCompleted (result : Int) (data : Option (List Item)) (img : Option Img)
  | verifyResult (result : Int) (img : Option Img)
  | identifyResult (result : Int) (offset : Nat) (img : Option Img)
  | captureResult (result : Int) (img : Option Img)
  | enrollStarted (status : Int)
  | verifyStarted (status : Int)
  | identifyStarted (status : Int)
  | captureStarted (status : Int)
  | enrollStopped
  | verifyStopped
  | identifyStopped
  | captureStopped
deriving DecidableEq, Repr

/-- Whether an event is one of the per-cycle upward result callbacks
(enroll-stage / verify / identify / capture result). -/
def Event.isResultCallback : Event → Bool
  | .enrollStageCompleted _ _ _ => true
  | .verifyResult _ _ => true
  | .identifyResult _ _ _ => true
  | .captureResult _ _ => true
  | _ => false

/-- sanitize_image: write a driver-fixed positive dimension onto the
image; otherwise require the image dimension to be positive; finally
require the sanity predicate. Returns the (possibly updated) image or
-EINVAL. -/
def sanitize_image (imgdrv : ImgDriver) (img : Img) : Except Int Img :=
  let wstep : Except Int Img :=
    if imgdrv.img_width > 0 then .ok { img with width := imgdrv.img_width }
    else if img.width ≤ 0 then .error (-EINVAL)
    else .ok img
  match wstep with
  | .error e => .error e
  | .ok img1 =>
    let hstep : Except Int Img :=
      if imgdrv.img_height > 0 then .ok { img1 with height := imgdrv.img_height }
      else if img1.height ≤ 0 then .error (-EINVAL)
      else .ok img1
    match hstep with
    | .error e => .error e
    | .ok img2 =>
      if ¬ img2.sane then .error (-EINVAL) else .ok img2

/-- verify_process_img: threshold is bz3_threshold unless zero, else the
default 40; score ≥ threshold is a match, non-negative below threshold no
match, negative propagates as the result. -/
def verify_process_img (imgdrv : ImgDriver) (imgdev : ImgDev) (score : Int) : ImgDev :=
  let match_score := if imgdrv.bz3_threshold = 0 then BOZORTH3_DEFAULT_THRESHOLD
                     else imgdrv.bz3_threshold
  let r := if score ≥ match_score then FP_VERIFY_MATCH
           else if score ≥ 0 then FP_VERIFY_NO_MATCH
           else score
  { imgdev with action_result := r }

/-- identify_process_img: the gallery comparison (external, thresholded
internally) yields the result and match offset; the core records both. -/
def identify_process_img (imgdev : ImgDev) (r : Int) (off : Nat) : ImgDev :=
  { imgdev with action_result := r, identify_match_offset := off }

/-- The decision switch at the end of fpi_imgdev_image_captured, entered
once the image passed sanitation and (for non-capture actions) the
minutiae gate; print is the freshly extracted single-item template (none
for capture). For enroll the item is moved into enroll_data, the emptied
per-cycle wrapper is freed, and the stage counter advances. -/
def image_captured_decide (imgdrv : ImgDriver) (imgdev : ImgDev) (img : Img)
    (print : Option (List Item)) : ImgDev :=
  let imgdev := { imgdev with acquire_data := print }
  match imgdev.action with
  | .enroll =>
    match print with
    | some (item :: _) =>
      let ed := imgdev.enroll_data.getD []
      let ns := imgdev.enroll_stage + 1
      { imgdev with
          enroll_data := some (item :: ed),
          acquire_data := Option.none,
          enroll_stage := ns,
          action_result := if ns = imgdev.nr_enroll_stages then FP_ENROLL_COMPLETE
                           else FP_ENROLL_PASS }
    | _ => imgdev
  | .verify => verify_process_img imgdrv imgdev img.cmp_score
  | .identify => identify_process_img imgdev img.gallery_r img.gallery_off
  | .capture => { imgdev with action_result := FP_CAPTURE_COMPLETE }
  | .none => imgdev

/-- The next_state epilogue of fpi_imgdev_image_captured: unconditionally
move to await-finger-off and request the same state of the driver. -/
def img_captured_next_state (imgdev : ImgDev) : ImgDev × List Event :=
  ({ imgdev with action_state := .awaitFingerOff },
   [.changeState .awaitFingerOff])

/-- fpi_imgdev_image_captured: ignore the event outside AwaitImage or when
a result is already set; sanitize (failure sets the error and frees the
image); for non-capture actions run extraction and the minutiae gate
(failures set FP_ENROLL_RETRY, a too-sparse template is freed); then the
per-action decision; all processed paths end in the next_state epilogue. -/
def fpi_imgdev_image_captured (imgdrv : ImgDriver) (imgdev : ImgDev) (img : Img) :
    ImgDev × List Event :=
  if imgdev.action_state ≠ .awaitImage then (imgdev, [])
  else if imgdev.action_result ≠ 0 then (imgdev, [])
  else
    match sanitize_image imgdrv img with
    | .error e => img_captured_next_state { imgdev with action_result := e }
    | .ok img1 =>
      let imgdev := { imgdev with acquire_img := some img1 }
      if imgdev.action ≠ .capture then
        if ¬ img1.extract_ok then
          img_captured_next_state { imgdev with action_result := FP_ENROLL_RETRY }
        else if img1.minutiae_num < MIN_ACCEPTABLE_MINUTIAE then
          img_captured_next_state { imgdev with action_result := FP_ENROLL_RETRY }
        else
          img_captured_next_state
            (image_captured_decide imgdrv imgdev img1 (some [Item.extracted img1.item_tok]))
      else
        img_captured_next_state (image_captured_decide imgdrv imgdev img1 Option.none)

/-- fpi_imgdev_report_finger_status: a finger-present report in
AwaitFingerOn arms capture; in every other case the code falls through to
the result-reporting path (the early return under the "ignoring status
report" log is commented out in the source): the in-flight image and
template references are cleared, the action's result callback is issued
(for enroll-complete the freshly allocated single-blank-item print is
passed in place of the accumulated enroll_data, which is dropped), and
the enroll retry path re-arms finger detection. -/
def fpi_imgdev_report_finger_status (imgdev : ImgDev) (present : Bool) :
    ImgDev × List Event :=
  let r := imgdev.action_result
  let img := imgdev.acquire_img
  let print : List Item := [Item.blank]
  if present ∧ imgdev.action_state = .awaitFingerOn then
    ({ imgdev with action_state := .awaitImage }, [.changeState .capture])
  else
    let imgdev := { imgdev with acquire_img := Option.none, acquire_data := Option.none }
    match imgdev.action with
    | .enroll =>
      let data := print
      let imgdev := if r = FP_ENROLL_COMPLETE then { imgdev with enroll_data := Option.none }
                    else imgdev
      let ev := Event.enrollStageCompleted r
                  (if r = FP_ENROLL_COMPLETE then some data else Option.none) img
      if r > 0 ∧ r ≠ FP_ENROLL_COMPLETE ∧ r ≠ FP_ENROLL_FAIL then
        ({ imgdev with action_result := 0, action_state := .awaitFingerOn },
         [ev, .changeState .awaitFingerOn])
      else
        (imgdev, [ev])
    | .verify =>
      ({ imgdev with action_result := 0 }, [.verifyResult r img])
    | .identify =>
      ({ imgdev with action_result := 0 },
       [.identifyResult r imgdev.identify_match_offset img])
    | .capture =>
      ({ imgdev with action_result := 0 }, [.captureResult r img])
    | .none => (imgdev, [])

/-- fpi_imgdev_session_error: report the error upward for the current
action; no device state changes. -/
def fpi_imgdev_session_error (imgdev : ImgDev) (error : Int) : List Event :=
  match imgdev.action with
  | .enroll => [.enrollStageCompleted error Option.none Option.none]
  | .verify => [.verifyResult error Option.none]
  | .identify => [.identifyResult error 0 Option.none]
  | .capture => [.captureResult error Option.none]
  | .none => []

/-- fpi_imgdev_abort_scan: record the result and fall back to
await-finger-off. -/
def fpi_imgdev_abort_scan (imgdev : ImgDev) (result : Int) : ImgDev × List Event :=
  ({ imgdev with action_result := result, action_state := .awaitFingerOff },
   [.changeState .awaitFingerOff])

/-- fpi_imgdev_activate_complete: notify the caller the action started;
on success move to await-finger-on and request it of the driver. -/
def fpi_imgdev_activate_complete (imgdev : ImgDev) (status : Int) :
    ImgDev × List Event :=
  let started : Option Event :=
    match imgdev.action with
    | .enroll => some (.enrollStarted status)
    | .verify => some (.verifyStarted status)
    | .identify => some (.identifyStarted status)
    | .capture => some (.captureStarted status)
    | .none => Option.none
  match started with
  | Option.none => (imgdev, [])
  | some ev =>
    if status = 0 then
      ({ imgdev with action_state := .awaitFingerOn },
       [ev, .changeState .awaitFingerOn])
    else (imgdev, [ev])

/-- fpi_imgdev_deactivate_complete: notify the caller the action stopped,
then clear the action and return the state machine to inactive. -/
def fpi_imgdev_deactivate_complete (imgdev : ImgDev) : ImgDev × List Event :=
  let evs : List Event :=
    match imgdev.action with
    | .enroll => [.enrollStopped]
    | .verify => [.verifyStopped]
    | .identify => [.identifyStopped]
    | .capture => [.captureStopped]
    | .none => []
  ({ imgdev with action := .none, action_state := .inactive }, evs)

/-- generic_acquire_start: record the action, enter Activating, reset the
stage counter and ask the driver to activate toward await-finger-on; the
driver's activation return value is an input. -/
def generic_acquire_start (imgdev : ImgDev) (action : ImgdevAction)
    (activate_r : Int) : ImgDev × List Event × Int :=
  ({ imgdev with action := action, action_state := .activating, enroll_stage := 0 },
   [.activate .awaitFingerOn], activate_r)

/-- generic_acquire_stop: enter Deactivating, ask the driver to
deactivate, release and null the in-flight template, enrollment
accumulator and image, and clear the action result. -/
def generic_acquire_stop (imgdev : ImgDev) : ImgDev × List Event :=
  ({ imgdev with
      action_state := .deactivating,
      acquire_data := Option.none,
      enroll_data := Option.none,
      acquire_img := Option.none,
      action_result := 0 },
   [.deactivate])

/-- img_dev_capture_start: unconditional capture is unsupported and is
rejected with -ENOTSUP before anything is started; otherwise a generic
acquisition starts with the capture action. -/
def img_dev_capture_start (unconditional_capture : Bool) (imgdev : ImgDev)
    (activate_r : Int) : Int × ImgDev × List Event :=
  if unconditional_capture then (-ENOTSUP, imgdev, [])
  else
    let s := generic_acquire_start imgdev .capture activate_r
    (s.2.2, s.1, s.2.1)

/-- A capture is accepted when sanitation, extraction and the minutiae
gate all pass. -/
def accepted (imgdrv : ImgDriver) (img : Img) : Prop :=
  (∃ img1, sanitize_image imgdrv img = .ok img1 ∧
    img1.extract_ok = true ∧ MIN_ACCEPTABLE_MINUTIAE ≤ img1.minutiae_num)

/-- The driver-report and caller events that can reach the core during
one acquisition action, after activation has completed. -/
inductive MidEvent
  | finger (present : Bool)
  | image (img : Img)
  | sessionError (e : Int)
  | stop
  | deactivateComplete
deriving DecidableEq, Repr

/-- One inbound event processed by the core. -/
def stepEvent (imgdrv : ImgDriver) (imgdev : ImgDev) : MidEvent → ImgDev × List Event
  | .finger p => fpi_imgdev_report_finger_status imgdev p
  | .image i => fpi_imgdev_image_captured imgdrv imgdev i
  | .sessionError e => (imgdev, fpi_imgdev_session_error imgdev e)
  | .stop => generic_acquire_stop imgdev
  | .deactivateComplete => fpi_imgdev_deactivate_complete imgdev

/-- Process a list of inbound events in order, collecting all outward
events. -/
def runEvents (imgdrv : ImgDriver) (imgdev : ImgDev) :
    List MidEvent → ImgDev × List Event
  | [] => (imgdev, [])
  | e :: rest =>
    let s1 := stepEvent imgdrv imgdev e
    let s2 := runEvents imgdrv s1.1 rest
    (s2.1, s1.2 ++ s2.2)

/-! ## Concrete fixtures used for witnesses and counterexample runs -/

/-- A driver with fixed 10×10 geometry and no declared threshold. -/
def drvW : ImgDriver := { img_width := 10, img_height := 10, bz3_threshold := 0 }

/-- A good capture whose extracted item carries the given token. -/
def mkImgW (tok : Nat) : Img :=
  { width := 10, height := 10, sane := true, extract_ok := true,
    minutiae_num := 25, item_tok := tok, cmp_score := 0, gallery_r := 0,
    gallery_off := 0 }

/-- A freshly opened device (img_dev_open zeroes the structure and sets
nr_enroll_stages to IMG_ENROLL_STAGES). -/
def devW0 : ImgDev :=
  { action := .none, action_state := .inactive, action_result := 0,
    enroll_stage := 0, enroll_data := Option.none, acquire_img := Option.none,
    acquire_data := Option.none, identify_match_offset := 0,
    nr_enroll_stages := IMG_ENROLL_STAGES }

/-- Device state after starting an enroll action and a successful
activation completion. -/
def startEnrollW : ImgDev :=
  (fpi_imgdev_activate_complete (generic_acquire_start devW0 .enroll 0).1 0).1

/-- One finger cycle: finger on, capture of a good image, finger off. -/
def cycW (i : Nat) : List MidEvent :=
  [.finger true, .image (mkImgW i), .finger false]

/-- Five accepted enroll cycles. -/
def scenarioW : List MidEvent :=
  cycW 1 ++ cycW 2 ++ cycW 3 ++ cycW 4 ++ cycW 5

/-- The same run stopped just after the fifth accepted capture, before
the final finger-off report. -/
def scenarioPrefixW : List MidEvent :=
  cycW 1 ++ cycW 2 ++ cycW 3 ++ cycW 4 ++ [.finger true, .image (mkImgW 5)]

/-- A verify device mid-cycle in AwaitImage holding a leftover image
reference and template. -/
def devC2 : ImgDev :=
  { action := .verify, action_state := .awaitImage, action_result := 0,
    enroll_stage := 0, enroll_data := Option.none,
    acquire_img := some (mkImgW 7), acquire_data := some [Item.extracted 7],
    identify_match_offset := 0, nr_enroll_stages := IMG_ENROLL_STAGES }

/-- The effective match threshold: the driver's declared bz3_threshold
when non-zero, else the bozorth3 default of 40. -/
def effective_threshold (imgdrv : ImgDriver) : Int :=
  if imgdrv.bz3_threshold = 0 then BOZORTH3_DEFAULT_THRESHOLD
  else imgdrv.bz3_threshold

/-! ## Claim theorems -/

/-- Helper: the only error sanitize_image produces is -EINVAL. -/
theorem sanitize_error_is_einval (imgdrv : ImgDriver) (img : Img) (e : Int)
    (h : sanitize_image imgdrv img = .error e) : e = -EINVAL := by
  unfold sanitize_image at h
  by_cases hw : imgdrv.img_width > 0 <;>
  by_cases hw2 : img.width ≤ 0 <;>
  by_cases hh : imgdrv.img_height > 0 <;>
  by_cases hh2 : img.height ≤ 0 <;>
  by_cases hsane : img.sane <;>
  simp_all

/-- C10: starting a capture on a device whose unconditional_capture flag
is set returns -ENOTSUP and leaves the device untouched: no field of the
device changes and no driver call (in particular no activate) is made. -/
theorem c10_unconditional_capture_rejected (imgdev : ImgDev) (activate_r : Int) :
    img_dev_capture_start true imgdev activate_r = (-ENOTSUP, imgdev, []) := by
  rfl

/-- C6: an image-captured event is ignored outside AwaitImage, and in
AwaitImage with a non-zero action_result the new image is discarded with
the whole device state unchanged (first error wins within a cycle). -/
theorem c6_image_captured_guards (imgdrv : ImgDriver) (imgdev : ImgDev) (img : Img) :
    (imgdev.action_state ≠ .awaitImage →
      fpi_imgdev_image_captured imgdrv imgdev img = (imgdev, [])) ∧
    (imgdev.action_state = .awaitImage → imgdev.action_result ≠ 0 →
      fpi_imgdev_image_captured imgdrv imgdev img = (imgdev, [])) := by
  constructor
  · intro h
    simp [fpi_imgdev_image_captured, h]
  · intro hs hr
    simp [fpi_imgdev_image_captured, hs, hr]

/-- C6 witness: concrete evaluations of both guards. -/
theorem c6_image_captured_guards_witness :
    fpi_imgdev_image_captured drvW devW0 (mkImgW 1) = (devW0, []) ∧
    fpi_imgdev_image_captured drvW
      { devC2 with action_result := FP_ENROLL_RETRY } (mkImgW 1) =
      ({ devC2 with action_result := FP_ENROLL_RETRY }, []) :=
  ⟨(c6_image_captured_guards drvW devW0 (mkImgW 1)).1 (by decide),
   (c6_image_captured_guards drvW { devC2 with action_result := FP_ENROLL_RETRY }
      (mkImgW 1)).2 (by decide) (by decide)⟩

/-- C5: every image-captured event processed in AwaitImage with no prior
result ends the call in AwaitFingerOff with a driver change-state request
to AwaitFingerOff, whatever sanitation, extraction or the decision step
did. -/
theorem c5_unconditional_finger_off (imgdrv : ImgDriver) (imgdev : ImgDev) (img : Img)
    (hs : imgdev.action_state = .awaitImage) (hr : imgdev.action_result = 0) :
    (fpi_imgdev_image_captured imgdrv imgdev img).1.action_state = .awaitFingerOff ∧
    (fpi_imgdev_image_captured imgdrv imgdev img).2 =
      [Event.changeState .awaitFingerOff] := by
  simp only [fpi_imgdev_image_captured, hs, hr]
  simp only [ne_eq, not_true_eq_false, if_false, ite_false, reduceIte]
  split
  · exact ⟨rfl, rfl⟩
  · split
    · split
      · exact ⟨rfl, rfl⟩
      · split
        · exact ⟨rfl, rfl⟩
        · exact ⟨rfl, rfl⟩
    · exact ⟨rfl, rfl⟩

/-- C5 witness: a concrete processed capture ends in AwaitFingerOff with
the change-state request. -/
theorem c5_unconditional_finger_off_witness :
    (fpi_imgdev_image_captured drvW
        { startEnrollW with action_state := .awaitImage } (mkImgW 1)).1.action_state =
      AcquireState.awaitFingerOff ∧
    (fpi_imgdev_image_captured drvW
        { startEnrollW with action_state := .awaitImage } (mkImgW 1)).2 =
      [Event.changeState .awaitFingerOff] :=
  c5_unconditional_finger_off drvW
    { startEnrollW with action_state := .awaitImage } (mkImgW 1) (by decide) (by decide)

/-- C9: a stop request forces Deactivating, releases and nulls the
in-flight image, acquire template and enroll accumulator, resets
action_result to 0 and issues no result callback; the subsequent
deactivation completion notifies the caller of the stop and returns the
machine to action None / state Inactive, again with no result callback. -/
theorem c9_stop_releases_and_deactivates (imgdev : ImgDev)
    (ha : imgdev.action ≠ .none) :
    (generic_acquire_stop imgdev).1.action_state = .deactivating ∧
    (generic_acquire_stop imgdev).1.acquire_img = Option.none ∧
    (generic_acquire_stop imgdev).1.acquire_data = Option.none ∧
    (generic_acquire_stop imgdev).1.enroll_data = Option.none ∧
    (generic_acquire_stop imgdev).1.action_result = 0 ∧
    (∀ ev ∈ (generic_acquire_stop imgdev).2, ev.isResultCallback = false) ∧
    (fpi_imgdev_deactivate_complete (generic_acquire_stop imgdev).1).1.action = .none ∧
    (fpi_imgdev_deactivate_complete (generic_acquire_stop imgdev).1).1.action_state =
      .inactive ∧
    (fpi_imgdev_deactivate_complete (generic_acquire_stop imgdev).1).2 ≠ [] ∧
    (∀ ev ∈ (fpi_imgdev_deactivate_complete (generic_acquire_stop imgdev).1).2,
      ev.isResultCallback = false) := by
  refine ⟨rfl, rfl, rfl, rfl, rfl, ?_, rfl, rfl, ?_, ?_⟩
  · intro ev hev
    simp [generic_acquire_stop] at hev
    simp [hev, Event.isResultCallback]
  · cases h : imgdev.action <;>
      simp [fpi_imgdev_deactivate_complete, generic_acquire_stop, h]
    exact absurd h ha
  · intro ev hev
    cases h : imgdev.action <;>
      simp [fpi_imgdev_deactivate_complete, generic_acquire_stop, h] at hev <;>
      first
        | exact absurd h ha
        | simp [hev, Event.isResultCallback]

/-- C9 witness: stopping a mid-cycle verify device. -/
theorem c9_stop_releases_and_deactivates_witness :
    (generic_acquire_stop devC2).1.action_state = AcquireState.deactivating ∧
    (generic_acquire_stop devC2).1.acquire_img = Option.none ∧
    (generic_acquire_stop devC2).1.acquire_data = Option.none ∧
    (generic_acquire_stop devC2).1.enroll_data = Option.none ∧
    (generic_acquire_stop devC2).1.action_result = 0 ∧
    (∀ ev ∈ (generic_acquire_stop devC2).2, ev.isResultCallback = false) ∧
    (fpi_imgdev_deactivate_complete (generic_acquire_stop devC2).1).1.action =
      ImgdevAction.none ∧
    (fpi_imgdev_deactivate_complete (generic_acquire_stop devC2).1).1.action_state =
      AcquireState.inactive ∧
    (fpi_imgdev_deactivate_complete (generic_acquire_stop devC2).1).2 ≠ [] ∧
    (∀ ev ∈ (fpi_imgdev_deactivate_complete (generic_acquire_stop devC2).1).2,
      ev.isResultCallback = false) :=
  c9_stop_releases_and_deactivates devC2 (by decide)

/-- C8: a driver-fixed positive width (resp. height) is written onto the
image; with a non-positive driver dimension a non-positive image
dimension fails sanitation, as does the pixel-buffer sanity predicate;
every sanitation failure is the negative input-error code -EINVAL, and in
the capture path it becomes action_result while the image is freed, not
stored on the device. -/
theorem c8_sanitation_gate (imgdrv : ImgDriver) (imgdev : ImgDev) (img : Img)
    (hs : imgdev.action_state = .awaitImage) (hr : imgdev.action_result = 0) :
    (0 < imgdrv.img_width → ∀ img1, sanitize_image imgdrv img = .ok img1 →
      img1.width = imgdrv.img_width) ∧
    (0 < imgdrv.img_height → ∀ img1, sanitize_image imgdrv img = .ok img1 →
      img1.height = imgdrv.img_height) ∧
    (imgdrv.img_width ≤ 0 → img.width ≤ 0 →
      sanitize_image imgdrv img = .error (-EINVAL)) ∧
    (imgdrv.img_height ≤ 0 → img.height ≤ 0 →
      sanitize_image imgdrv img = .error (-EINVAL)) ∧
    (img.sane = false → sanitize_image imgdrv img = .error (-EINVAL)) ∧
    (∀ e, sanitize_image imgdrv img = .error e →
      e < 0 ∧
      fpi_imgdev_image_captured imgdrv imgdev img =
        ({ imgdev with action_result := e, action_state := .awaitFingerOff },
         [Event.changeState .awaitFingerOff])) := by
  refine ⟨?_, ?_, ?_, ?_, ?_, ?_⟩
  · intro hw img1 h1
    unfold sanitize_image at h1
    simp only [hw, if_true, reduceIte] at h1
    by_cases hh : imgdrv.img_height > 0 <;>
    by_cases hh2 : img.height ≤ 0 <;>
    by_cases hsane : img.sane <;>
    simp_all <;> simp [← h1]
  · intro hh img1 h1
    unfold sanitize_image at h1
    by_cases hw : imgdrv.img_width > 0 <;>
    by_cases hw2 : img.width ≤ 0 <;>
    by_cases hsane : img.sane <;>
    simp_all <;> simp [← h1]
  · intro hw hw2
    unfold sanitize_image
    simp [show ¬ imgdrv.img_width > 0 by omega, hw2]
  · intro hh hh2
    unfold sanitize_image
    have hh3 : ¬ 0 < imgdrv.img_height := not_lt.mpr hh
    by_cases hw : 0 < imgdrv.img_width
    · simp [hw, hh3, hh2]
    · by_cases hw2 : img.width ≤ 0
      · simp [hw, hw2]
      · simp [hw, hw2, hh3, hh2]
  · intro hsane
    unfold sanitize_image
    by_cases hw : 0 < imgdrv.img_width <;>
    by_cases hw2 : img.width ≤ 0 <;>
    by_cases hh : 0 < imgdrv.img_height <;>
    by_cases hh2 : img.height ≤ 0 <;>
    simp [hw, hw2, hh, hh2, hsane]
  · intro e he
    have heq := sanitize_error_is_einval imgdrv img e he
    refine ⟨by simp [heq, EINVAL], ?_⟩
    simp [fpi_imgdev_image_captured, hs, hr, he, img_captured_next_state]

/-- C8 witness: a capture with a failing sanity predicate on a driver
with variable geometry. -/
theorem c8_sanitation_gate_witness :
    (0 < ImgDriver.img_width { img_width := 0, img_height := 0, bz3_threshold := 0 } →
      ∀ img1,
        sanitize_image { img_width := 0, img_height := 0, bz3_threshold := 0 }
          { mkImgW 3 with sane := false } = .ok img1 →
        img1.width = ImgDriver.img_width { img_width := 0, img_height := 0, bz3_threshold := 0 }) ∧
    (0 < ImgDriver.img_height { img_width := 0, img_height := 0, bz3_threshold := 0 } →
      ∀ img1,
        sanitize_image { img_width := 0, img_height := 0, bz3_threshold := 0 }
          { mkImgW 3 with sane := false } = .ok img1 →
        img1.height = ImgDriver.img_height { img_width := 0, img_height := 0, bz3_threshold := 0 }) ∧
    (ImgDriver.img_width { img_width := 0, img_height := 0, bz3_threshold := 0 } ≤ 0 →
      Img.width { mkImgW 3 with sane := false } ≤ 0 →
      sanitize_image { img_width := 0, img_height := 0, bz3_threshold := 0 }
        { mkImgW 3 with sane := false } = .error (-EINVAL)) ∧
    (ImgDriver.img_height { img_width := 0, img_height := 0, bz3_threshold := 0 } ≤ 0 →
      Img.height { mkImgW 3 with sane := false } ≤ 0 →
      sanitize_image { img_width := 0, img_height := 0, bz3_threshold := 0 }
        { mkImgW 3 with sane := false } = .error (-EINVAL)) ∧
    (Img.sane { mkImgW 3 with sane := false } = false →
      sanitize_image { img_width := 0, img_height := 0, bz3_threshold := 0 }
        { mkImgW 3 with sane := false } = .error (-EINVAL)) ∧
    (∀ e,
      sanitize_image { img_width := 0, img_height := 0, bz3_threshold := 0 }
        { mkImgW 3 with sane := false } = .error e →
      e < 0 ∧
      fpi_imgdev_image_captured { img_width := 0, img_height := 0, bz3_threshold := 0 }
          { devC2 with acquire_img := Option.none } { mkImgW 3 with sane := false } =
        ({ { devC2 with acquire_img := Option.none } with
            action_result := e, action_state := .awaitFingerOff },
         [Event.changeState .awaitFingerOff])) :=
  c8_sanitation_gate { img_width := 0, img_height := 0, bz3_threshold := 0 }
    { devC2 with acquire_img := Option.none } { mkImgW 3 with sane := false }
    (by decide) (by decide)

/-- C3: in an accepted verify cycle, with threshold the driver's declared
bz3_threshold if non-zero and 40 otherwise, a score at or above the
threshold yields Match, a non-negative score below it yields NoMatch, and
a negative score is propagated as the action result itself, never a match
decision. -/
theorem c3_verify_threshold (imgdrv : ImgDriver) (imgdev : ImgDev) (img img1 : Img)
    (ha : imgdev.action = .verify) (hs : imgdev.action_state = .awaitImage)
    (hr : imgdev.action_result = 0) (hth : 0 ≤ imgdrv.bz3_threshold)
    (hok : sanitize_image imgdrv img = .ok img1) (hex : img1.extract_ok = true)
    (hmin : MIN_ACCEPTABLE_MINUTIAE ≤ img1.minutiae_num) :
    (effective_threshold imgdrv ≤ img1.cmp_score →
      (fpi_imgdev_image_captured imgdrv imgdev img).1.action_result = FP_VERIFY_MATCH) ∧
    (0 ≤ img1.cmp_score → img1.cmp_score < effective_threshold imgdrv →
      (fpi_imgdev_image_captured imgdrv imgdev img).1.action_result = FP_VERIFY_NO_MATCH) ∧
    (img1.cmp_score < 0 →
      (fpi_imgdev_image_captured imgdrv imgdev img).1.action_result = img1.cmp_score ∧
      (fpi_imgdev_image_captured imgdrv imgdev img).1.action_result < 0) := by
  have hred : (fpi_imgdev_image_captured imgdrv imgdev img).1.action_result =
      (if effective_threshold imgdrv ≤ img1.cmp_score then FP_VERIFY_MATCH
       else if 0 ≤ img1.cmp_score then FP_VERIFY_NO_MATCH
       else img1.cmp_score) := by
    simp only [fpi_imgdev_image_captured, hs, hr, hok, ne_eq, not_true_eq_false,
      if_false, reduceIte, hex]
    have hcap : imgdev.action ≠ .capture := by simp [ha]
    have hnm : ¬ img1.minutiae_num < MIN_ACCEPTABLE_MINUTIAE := not_lt.mpr hmin
    simp only [hcap, hnm, if_true, if_false, reduceIte, Bool.not_true,
      Bool.false_eq_true, img_captured_next_state, image_captured_decide, ha,
      verify_process_img, effective_threshold, ge_iff_le]
    simp
  refine ⟨?_, ?_, ?_⟩
  · intro h
    rw [hred, if_pos h]
  · intro h0 hlt
    rw [hred, if_neg (not_le.mpr hlt), if_pos h0]
  · intro hneg
    have hthr : ¬ effective_threshold imgdrv ≤ img1.cmp_score := by
      unfold effective_threshold BOZORTH3_DEFAULT_THRESHOLD
      split <;> omega
    constructor
    · rw [hred, if_neg hthr, if_neg (not_le.mpr hneg)]
    · rw [hred, if_neg hthr, if_neg (not_le.mpr hneg)]
      exact hneg

/-- C3 witness: verify at the default threshold with score 40 (match). -/
theorem c3_verify_threshold_witness :
    (effective_threshold drvW ≤ Img.cmp_score { mkImgW 2 with cmp_score := 40 } →
      (fpi_imgdev_image_captured drvW { devC2 with acquire_img := Option.none }
          { mkImgW 2 with cmp_score := 40 }).1.action_result = FP_VERIFY_MATCH) ∧
    (0 ≤ Img.cmp_score { mkImgW 2 with cmp_score := 40 } →
      Img.cmp_score { mkImgW 2 with cmp_score := 40 } < effective_threshold drvW →
      (fpi_imgdev_image_captured drvW { devC2 with acquire_img := Option.none }
          { mkImgW 2 with cmp_score := 40 }).1.action_result = FP_VERIFY_NO_MATCH) ∧
    (Img.cmp_score { mkImgW 2 with cmp_score := 40 } < 0 →
      (fpi_imgdev_image_captured drvW { devC2 with acquire_img := Option.none }
          { mkImgW 2 with cmp_score := 40 }).1.action_result =
        Img.cmp_score { mkImgW 2 with cmp_score := 40 } ∧
      (fpi_imgdev_image_captured drvW { devC2 with acquire_img := Option.none }
          { mkImgW 2 with cmp_score := 40 }).1.action_result < 0) :=
  c3_verify_threshold drvW { devC2 with acquire_img := Option.none }
    { mkImgW 2 with cmp_score := 40 } { mkImgW 2 with cmp_score := 40 }
    (by decide) (by decide) (by decide) (by decide) (by rfl) (by decide) (by decide)

/-- C7: in a non-capture cycle on a sanitized image, extraction failure
sets the Retry result; a successful extraction with fewer than 10
minutiae discards the template (acquire_data is not set) and sets Retry;
exactly 10 minutiae are accepted and the call proceeds to the per-action
decision step. -/
theorem c7_minutiae_gate (imgdrv : ImgDriver) (imgdev : ImgDev) (img img1 : Img)
    (ha : imgdev.action ≠ .capture) (hs : imgdev.action_state = .awaitImage)
    (hr : imgdev.action_result = 0)
    (hok : sanitize_image imgdrv img = .ok img1) :
    (img1.extract_ok = false →
      (fpi_imgdev_image_captured imgdrv imgdev img).1.action_result = FP_ENROLL_RETRY) ∧
    (img1.extract_ok = true → img1.minutiae_num < MIN_ACCEPTABLE_MINUTIAE →
      (fpi_imgdev_image_captured imgdrv imgdev img).1.action_result = FP_ENROLL_RETRY ∧
      (fpi_imgdev_image_captured imgdrv imgdev img).1.acquire_data = imgdev.acquire_data) ∧
    (img1.extract_ok = true → img1.minutiae_num = MIN_ACCEPTABLE_MINUTIAE →
      fpi_imgdev_image_captured imgdrv imgdev img =
        img_captured_next_state
          (image_captured_decide imgdrv { imgdev with acquire_img := some img1 } img1
            (some [Item.extracted img1.item_tok]))) := by
  refine ⟨?_, ?_, ?_⟩
  · intro hex
    simp [fpi_imgdev_image_captured, hs, hr, hok, ha, hex, img_captured_next_state]
  · intro hex hlt
    simp [fpi_imgdev_image_captured, hs, hr, hok, ha, hex, hlt,
      img_captured_next_state]
  · intro hex heq
    have hnm : ¬ img1.minutiae_num < MIN_ACCEPTABLE_MINUTIAE := by omega
    simp [fpi_imgdev_image_captured, hs, hr, hok, ha, hex, hnm]

/-- C7 witness: an enroll capture with exactly 10 minutiae is accepted. -/
theorem c7_minutiae_gate_witness :
    (Img.extract_ok { mkImgW 4 with minutiae_num := 10 } = false →
      (fpi_imgdev_image_captured drvW
          { startEnrollW with action_state := .awaitImage }
          { mkImgW 4 with minutiae_num := 10 }).1.action_result = FP_ENROLL_RETRY) ∧
    (Img.extract_ok { mkImgW 4 with minutiae_num := 10 } = true →
      Img.minutiae_num { mkImgW 4 with minutiae_num := 10 } < MIN_ACCEPTABLE_MINUTIAE →
      (fpi_imgdev_image_captured drvW
          { startEnrollW with action_state := .awaitImage }
          { mkImgW 4 with minutiae_num := 10 }).1.action_result = FP_ENROLL_RETRY ∧
      (fpi_imgdev_image_captured drvW
          { startEnrollW with action_state := .awaitImage }
          { mkImgW 4 with minutiae_num := 10 }).1.acquire_data =
        ImgDev.acquire_data { startEnrollW with action_state := .awaitImage }) ∧
    (Img.extract_ok { mkImgW 4 with minutiae_num := 10 } = true →
      Img.minutiae_num { mkImgW 4 with minutiae_num := 10 } = MIN_ACCEPTABLE_MINUTIAE →
      fpi_imgdev_image_captured drvW
          { startEnrollW with action_state := .awaitImage }
          { mkImgW 4 with minutiae_num := 10 } =
        img_captured_next_state
          (image_captured_decide drvW
            { { startEnrollW with action_state := .awaitImage } with
                acquire_img := some { mkImgW 4 with minutiae_num := 10 } }
            { mkImgW 4 with minutiae_num := 10 }
            (some [Item.extracted (Img.item_tok { mkImgW 4 with minutiae_num := 10 })]))) := by
  have h := c7_minutiae_gate drvW { startEnrollW with action_state := .awaitImage }
    { mkImgW 4 with minutiae_num := 10 } { mkImgW 4 with minutiae_num := 10 }
    (by decide) (by decide) (by decide) (by rfl)
  exact ⟨h.1, fun a b => ⟨(h.2.1 a b).1, (h.2.1 a b).2⟩, h.2.2⟩

/-- C1: after five accepted enroll cycles the device has accumulated the
five per-stage items in enroll_data, yet the enroll-stage callback that
reports EnrollComplete passes the freshly allocated single-blank-item
print instead, and the accumulated template is dropped from the device
(enroll_data becomes none without being handed over): the delivered
template has 1 item, not nr_enroll_stages = 5. -/
theorem c1_complete_callback_payload :
    (runEvents drvW startEnrollW scenarioPrefixW).1.enroll_data =
      some [Item.extracted 5, Item.extracted 4, Item.extracted 3,
            Item.extracted 2, Item.extracted 1] ∧
    (runEvents drvW startEnrollW scenarioW).2.getLast? =
      some (Event.enrollStageCompleted FP_ENROLL_COMPLETE (some [Item.blank])
        (some { mkImgW 5 with width := 10, height := 10 })) ∧
    (runEvents drvW startEnrollW scenarioW).1.enroll_data = Option.none ∧
    devW0.nr_enroll_stages = 5 ∧
    List.length [Item.blank] ≠ devW0.nr_enroll_stages := by
  refine ⟨by rfl, by rfl, by rfl, by rfl, by decide⟩

/-- C2: a finger-present report delivered while action_state ==
AwaitImage is not a no-op: on a verify device holding an in-flight image
and template it clears acquire_img and acquire_data and issues the
upward verify result callback (the early return under the "ignoring
status report" log is commented out in the source, so the report falls
through to result delivery). -/
theorem c2_finger_present_awaitImage_not_noop :
    devC2.action_state = AcquireState.awaitImage ∧
    (fpi_imgdev_report_finger_status devC2 true).1.acquire_img = Option.none ∧
    devC2.acquire_img ≠ Option.none ∧
    (fpi_imgdev_report_finger_status devC2 true).1.acquire_data = Option.none ∧
    devC2.acquire_data ≠ Option.none ∧
    (fpi_imgdev_report_finger_status devC2 true).2 =
      [Event.verifyResult 0 (some (mkImgW 7))] ∧
    ((fpi_imgdev_report_finger_status devC2 true).2.any Event.isResultCallback) = true := by
  refine ⟨by rfl, by rfl, by decide, by rfl, by decide, by rfl, by rfl⟩

/-- The inductive invariant behind the enroll stage bound: during an
enroll action (or after it has been cleared) the stage counter stays
within nr_enroll_stages, and once it reaches the bound the result is
EnrollComplete, or a stop has already cleared the result and the machine
is shutting down. -/
def enrollInv (d : ImgDev) : Prop :=
  (d.action = .enroll ∨ d.action = .none) ∧
  d.enroll_stage ≤ d.nr_enroll_stages ∧
  (d.enroll_stage = d.nr_enroll_stages →
    d.action_result = FP_ENROLL_COMPLETE ∨
    (d.action_result = 0 ∧
      (d.action_state = .deactivating ∨ d.action_state = .inactive)))

/-- Finger-status reports preserve the enroll invariant. -/
theorem enrollInv_finger (d : ImgDev) (p : Bool) (h : enrollInv d) :
    enrollInv (fpi_imgdev_report_finger_status d p).1 := by
  obtain ⟨hact, hle, hcomp⟩ := h
  unfold enrollInv fpi_imgdev_report_finger_status
  by_cases harm : (p = true ∧ d.action_state = .awaitFingerOn)
  · rw [if_pos harm]
    refine ⟨hact, hle, ?_⟩
    intro hst
    rcases hcomp hst with h1 | ⟨_, h3 | h3⟩
    · exact Or.inl h1
    · rw [harm.2] at h3; simp at h3
    · rw [harm.2] at h3; simp at h3
  · rw [if_neg harm]
    rcases hact with ha | ha <;> simp only [ha]
    · by_cases hc : d.action_result = FP_ENROLL_COMPLETE
      · rw [if_pos hc, if_neg (by simp [hc])]
        exact ⟨Or.inl rfl, hle, fun _ => Or.inl hc⟩
      · rw [if_neg hc]
        by_cases hretry : (d.action_result > 0 ∧ d.action_result ≠ FP_ENROLL_COMPLETE ∧
            d.action_result ≠ FP_ENROLL_FAIL)
        · rw [if_pos hretry]
          refine ⟨Or.inl rfl, hle, ?_⟩
          intro hst
          rcases hcomp hst with h1 | ⟨h2, _⟩
          · exact absurd h1 hc
          · exact absurd h2 (by omega)
        · rw [if_neg hretry]
          exact ⟨Or.inl rfl, hle, hcomp⟩
    · exact ⟨by simp, hle, hcomp⟩

/-- Image-captured events preserve the enroll invariant. -/
theorem enrollInv_image (imgdrv : ImgDriver) (d : ImgDev) (i : Img) (h : enrollInv d) :
    enrollInv (fpi_imgdev_image_captured imgdrv d i).1 := by
  obtain ⟨hact, hle, hcomp⟩ := h
  simp only [fpi_imgdev_image_captured]
  split
  · exact ⟨hact, hle, hcomp⟩
  split
  · exact ⟨hact, hle, hcomp⟩
  rename_i hs0 hr0
  have hs : d.action_state = .awaitImage := not_not.mp hs0
  have hr : d.action_result = 0 := not_not.mp hr0
  have hlt : d.enroll_stage < d.nr_enroll_stages := by
    rcases Nat.lt_or_ge d.enroll_stage d.nr_enroll_stages with hl | hg
    · exact hl
    · have hst : d.enroll_stage = d.nr_enroll_stages := le_antisymm hle hg
      rcases hcomp hst with h1 | ⟨_, h3 | h3⟩
      · rw [hr] at h1; simp [FP_ENROLL_COMPLETE] at h1
      · rw [hs] at h3; simp at h3
      · rw [hs] at h3; simp at h3
  split
  · exact ⟨hact, hle, fun hst => absurd hst (Nat.ne_of_lt hlt)⟩
  rename_i img1 hsan
  split
  · split
    · exact ⟨hact, hle, fun hst => absurd hst (Nat.ne_of_lt hlt)⟩
    · split
      · exact ⟨hact, hle, fun hst => absurd hst (Nat.ne_of_lt hlt)⟩
      · rcases hact with ha | ha
        · simp only [image_captured_decide, img_captured_next_state, ha]
          refine ⟨by simp, hlt, ?_⟩
          intro hst
          exact Or.inl (if_pos hst)
        · simp only [image_captured_decide, img_captured_next_state, ha]
          exact ⟨by simp, hle, fun hst => absurd hst (Nat.ne_of_lt hlt)⟩
  · rename_i hcap
    rcases hact with ha | ha <;> simp [ha] at hcap

/-- Every inbound event preserves the enroll invariant. -/
theorem enrollInv_step (imgdrv : ImgDriver) (d : ImgDev) (e : MidEvent)
    (h : enrollInv d) : enrollInv (stepEvent imgdrv d e).1 := by
  obtain ⟨hact, hle, hcomp⟩ := h
  cases e with
  | finger p => exact enrollInv_finger d p ⟨hact, hle, hcomp⟩
  | image i => exact enrollInv_image imgdrv d i ⟨hact, hle, hcomp⟩
  | sessionError e => exact ⟨hact, hle, hcomp⟩
  | stop =>
    exact ⟨hact, hle, fun _ => Or.inr ⟨rfl, Or.inl rfl⟩⟩
  | deactivateComplete =>
    refine ⟨Or.inr rfl, hle, ?_⟩
    intro hst
    rcases hcomp hst with h1 | ⟨h2, _⟩
    · exact Or.inl h1
    · exact Or.inr ⟨h2, Or.inr rfl⟩

/-- Event traces preserve the enroll invariant. -/
theorem enrollInv_run (imgdrv : ImgDriver) (d : ImgDev) (es : List MidEvent)
    (h : enrollInv d) : enrollInv (runEvents imgdrv d es).1 := by
  induction es generalizing d with
  | nil => exact h
  | cons e rest ih => exact ih (stepEvent imgdrv d e).1 (enrollInv_step imgdrv d e h)

/-- No inbound event changes the configured total stage count. -/
theorem stepEvent_nr (imgdrv : ImgDriver) (d : ImgDev) (e : MidEvent) :
    (stepEvent imgdrv d e).1.nr_enroll_stages = d.nr_enroll_stages := by
  cases e with
  | finger p =>
    simp only [stepEvent, fpi_imgdev_report_finger_status]
    repeat' split
    all_goals rfl
  | image i =>
    simp only [stepEvent, fpi_imgdev_image_captured, image_captured_decide,
      img_captured_next_state, verify_process_img, identify_process_img]
    repeat' split
    all_goals rfl
  | sessionError e => rfl
  | stop => rfl
  | deactivateComplete => rfl

/-- Event traces do not change the configured total stage count. -/
theorem runEvents_nr (imgdrv : ImgDriver) (d : ImgDev) (es : List MidEvent) :
    (runEvents imgdrv d es).1.nr_enroll_stages = d.nr_enroll_stages := by
  induction es generalizing d with
  | nil => rfl
  | cons e rest ih =>
    calc (runEvents imgdrv d (e :: rest)).1.nr_enroll_stages
        = (stepEvent imgdrv d e).1.nr_enroll_stages := ih (stepEvent imgdrv d e).1
      _ = d.nr_enroll_stages := stepEvent_nr imgdrv d e

/-- C4: enroll_stage is reset to 0 when the enroll action starts; an
accepted enroll cycle increments it by exactly one, the result being
EnrollComplete exactly when the incremented stage equals nr_enroll_stages
and EnrollPass otherwise; and along any sequence of driver reports and
caller events after activation, enroll_stage never exceeds
nr_enroll_stages. -/
theorem c4_enroll_stage_discipline (imgdrv : ImgDriver) (dev0 : ImgDev)
    (es : List MidEvent) (activate_r : Int)
    (hnr : 1 ≤ dev0.nr_enroll_stages) :
    (generic_acquire_start dev0 .enroll activate_r).1.enroll_stage = 0 ∧
    (∀ (d : ImgDev) (img img1 : Img), d.action = .enroll →
      d.action_state = .awaitImage → d.action_result = 0 →
      sanitize_image imgdrv img = .ok img1 → img1.extract_ok = true →
      MIN_ACCEPTABLE_MINUTIAE ≤ img1.minutiae_num →
      (fpi_imgdev_image_captured imgdrv d img).1.enroll_stage = d.enroll_stage + 1 ∧
      (fpi_imgdev_image_captured imgdrv d img).1.action_result =
        (if d.enroll_stage + 1 = d.nr_enroll_stages then FP_ENROLL_COMPLETE
         else FP_ENROLL_PASS)) ∧
    (runEvents imgdrv
       (fpi_imgdev_activate_complete
         (generic_acquire_start dev0 .enroll activate_r).1 0).1 es).1.enroll_stage ≤
      dev0.nr_enroll_stages := by
  refine ⟨rfl, ?_, ?_⟩
  · intro d img img1 ha hs2 hr2 hok hex hmin
    have hcap : d.action ≠ .capture := by simp [ha]
    have hnm : ¬ img1.minutiae_num < MIN_ACCEPTABLE_MINUTIAE := not_lt.mpr hmin
    simp only [fpi_imgdev_image_captured, hs2, hr2, hok, ne_eq, not_true_eq_false,
      if_false, reduceIte, reduceCtorEq, hcap, not_false_eq_true, if_true, hex,
      hnm, Bool.not_true, Bool.false_eq_true, image_captured_decide,
      img_captured_next_state, ha]
    exact ⟨trivial, trivial⟩
  · have hbase : enrollInv
        (fpi_imgdev_activate_complete
          (generic_acquire_start dev0 .enroll activate_r).1 0).1 := by
      refine ⟨Or.inl rfl, Nat.zero_le _, ?_⟩
      intro hst
      have hst2 : (0 : Nat) = dev0.nr_enroll_stages := hst
      omega
    have hfin := enrollInv_run imgdrv
      (fpi_imgdev_activate_complete
        (generic_acquire_start dev0 .enroll activate_r).1 0).1 es hbase
    have hnr2 : (runEvents imgdrv
        (fpi_imgdev_activate_complete
          (generic_acquire_start dev0 .enroll activate_r).1 0).1 es).1.nr_enroll_stages =
        dev0.nr_enroll_stages :=
      runEvents_nr imgdrv _ es
    exact le_of_le_of_eq hfin.2.1 hnr2

/-- C4 witness: the stage bound along the concrete five-cycle enrollment
run. -/
theorem c4_enroll_stage_discipline_witness :
    (runEvents drvW
       (fpi_imgdev_activate_complete
         (generic_acquire_start devW0 .enroll 0).1 0).1 scenarioW).1.enroll_stage ≤
      devW0.nr_enroll_stages :=
  (c4_enroll_stage_discipline drvW devW0 scenarioW 0 (by decide)).2.2

end LibFprint
